import Mathlib

/-!
Verification of the job-applier application engine.

Shallow embedding of `src/scripts/apply_jobs.py` and
`src/scripts/claude_client.py`.  Browser pages are modelled as `PageView`
snapshots; the page mutates only on clicks, so an execution environment is
a function `Nat → PageView` giving the view after `k` page-mutating clicks.
Library calls that live outside this repository (Playwright itself,
`json.loads`, the subprocess running an agent CLI) appear as environment
inputs recording their observable result.
-/

namespace JobApplier

-- ---------------------------------------------------------------------------
-- String helpers (Python `needle in haystack`, `str.lower()`)
-- ---------------------------------------------------------------------------

/-- Whether the first character list is an initial segment of the second. -/
def isLeadOf : List Char → List Char → Bool
  | [], _ => true
  | _ :: _, [] => false
  | a :: as, b :: bs => a == b && isLeadOf as bs

/-- Whether the first character list occurs contiguously inside the second. -/
def occursIn (needle : List Char) : List Char → Bool
  | [] => needle.isEmpty
  | b :: bs => isLeadOf needle (b :: bs) || occursIn needle bs

/-- Python `needle in hay` on strings (case sensitive). -/
def strContains (hay needle : String) : Bool :=
  occursIn needle.data hay.data

/-- Python `str.lower()`. -/
def strLower (s : String) : String :=
  ⟨s.data.map Char.toLower⟩

/-- Python `str.strip()`: drop leading and trailing whitespace. -/
def stripStr (s : String) : String :=
  ⟨((s.data.dropWhile Char.isWhitespace).reverse.dropWhile Char.isWhitespace).reverse⟩

-- ---------------------------------------------------------------------------
-- Fixed phrase lists from apply_jobs.py
-- ---------------------------------------------------------------------------

/-- `CAPTCHA_PATTERNS` (apply_jobs.py lines 44-52). -/
def CAPTCHA_PATTERNS : List String :=
  ["verify you are human", "captcha", "i\x27m not a robot", "security check",
   "prove you\x27re human", "are you a robot", "human verification"]

/-- Success keywords checked after the Easy Apply submit click (line 294). -/
def easySuccessKeywords : List String :=
  ["application submitted", "you\x27ve applied", "successfully applied",
   "application sent", "we received your application"]

/-- Success keywords checked after the blind fill (line 467). -/
def blindSuccessKeywords : List String :=
  ["application submitted", "thank you for applying", "successfully applied",
   "application received", "we\x27ll be in touch"]

/-- Success keywords checked after executing a vision plan (line 522). -/
def visionSuccessKeywords : List String :=
  ["application submitted", "thank you for applying", "successfully applied",
   "application received", "we\x27ll be in touch", "application complete"]

/-- Submit button labels tried by the blind fill (line 455). -/
def blindSubmitLabels : List String :=
  ["Submit", "Apply Now", "Apply", "Submit Application"]

-- ---------------------------------------------------------------------------
-- Page model
-- ---------------------------------------------------------------------------

/--
One snapshot of the browser page as the engine observes it.
`bodyText = none` models `page.inner_text("body")` raising.
`hasField l` is whether `find_by_label` resolves label `l` to a control;
`hasButtonLabel l` is whether a button with visible text `l` is present.
-/
structure PageView where
  bodyText : Option String
  authWall : Bool
  easyApplyBtn : Bool
  fileInput : Bool
  submitBtnVisible : Bool
  nextBtnVisible : Bool
  modalPresent : Bool
  hasField : String → Bool
  hasButtonLabel : String → Bool

/-- Whether the lower-cased body text contains any of the given phrases.
Mirrors the repeated `page.inner_text("body").lower()` + membership checks;
an extraction failure yields empty text, hence `false`. -/
def textHasAny (v : PageView) (kws : List String) : Bool :=
  match v.bodyText with
  | none => false
  | some t => kws.any fun k => strContains (strLower t) k

/-- `_detect_captcha` (apply_jobs.py lines 126-132): lower-cases the body
text and looks for any CAPTCHA pattern; returns false if extraction raises. -/
def detect_captcha (v : PageView) : Bool :=
  match v.bodyText with
  | none => false
  | some t => CAPTCHA_PATTERNS.any fun p => strContains (strLower t) p

-- ---------------------------------------------------------------------------
-- Outcome dictionaries
-- ---------------------------------------------------------------------------

/--
A result dictionary as returned by the engine.  `method?`, `reason?` and
`error?` are `none` when the corresponding key is absent or set to Python
`None`; `method?` is optional because the agent-handoff tier returns the
JSON object parsed from agent output verbatim (claude_client.py lines
306-310), which need not contain a `method` key.
-/
structure Outcome where
  success : Bool
  method? : Option String
  reason? : Option String
  error? : Option String
deriving DecidableEq, Repr

/-- A provider-proposed form action (the JSON objects of the vision plan). -/
structure FormAction where
  action : String
  label : String
  value : String
deriving DecidableEq, Repr

/-- Observable page interactions performed by the engine itself, each
tagged with the index of the page view it acted on. -/
inductive EngineAction where
  | clickEasyApply (idx : Nat)
  | uploadResume (idx : Nat)
  | fillFields (idx : Nat)
  | clickNext (idx : Nat)
  | clickSubmit (idx : Nat)
  | agentHandoff
  | planStep (idx : Nat) (a : FormAction)
  | blindFillFields (idx : Nat)
  | blindUpload (idx : Nat)
  | blindClick (idx : Nat) (label : String)
deriving DecidableEq, Repr

-- ---------------------------------------------------------------------------
-- Field filling: _fill_field (apply_jobs.py lines 146-167)
-- ---------------------------------------------------------------------------

/--
A form control as `_fill_field` observes it: its lower-cased tag name, the
visible texts of its options (selection controls), the currently selected
option, and whether the evaluate, fill or select-option calls raise.
-/
structure Field where
  tag : String
  options : List String
  selected : Option String
  evalRaises : Bool
  fillRaises : Bool
  selectRaises : Bool
deriving DecidableEq, Repr

/-- The option-matching test of `_fill_field` (line 158):
`value.lower() in o.lower()`. -/
def optionMatches (value opt : String) : Bool :=
  strContains (strLower opt) (strLower value)

/--
`_fill_field` (apply_jobs.py lines 146-167), after `find_by_label` has
resolved the label to `field?` (`none` when no strategy matched).  Returns
the reported boolean and the resulting control state.  An empty value or
an unresolved label reports failure; on a selection control the first
option containing the value case-insensitively is selected, and with no
matching option nothing is selected yet success is still reported; any
raising page call reports failure.
-/
def fill_field (field? : Option Field) (value : String) : Bool × Option Field :=
  if value = "" then (false, field?)
  else
    match field? with
    | none => (false, none)
    | some f =>
      if f.evalRaises then (false, some f)
      else if f.tag = "select" then
        match f.options.find? (optionMatches value) with
        | some m =>
          if f.selectRaises then (false, some f)
          else (true, some { f with selected := some m })
        | none => (true, some f)
      else if f.fillRaises then (false, some f)
      else (true, some f)

-- ---------------------------------------------------------------------------
-- Guided apply: apply_linkedin_easy_apply (apply_jobs.py lines 198-315)
-- ---------------------------------------------------------------------------

/-- Failure outcome when a CAPTCHA is on the initially loaded job page. -/
def easyCaptchaInitial : Outcome :=
  ⟨false, some "easy_apply", some "captcha_detected",
   some "CAPTCHA detected — apply manually"⟩

/-- Failure outcome when a CAPTCHA appears during the modal loop. -/
def easyCaptchaDuring : Outcome :=
  ⟨false, some "easy_apply", some "captcha_detected",
   some "CAPTCHA appeared during Easy Apply"⟩

/-- Failure outcome for the LinkedIn sign-in wall. -/
def easyAuthWall : Outcome :=
  ⟨false, some "easy_apply", some "linkedin_auth_required",
   some "LinkedIn sign-in wall — browser session not authenticated"⟩

/-- Outcome when no Easy Apply button is found (signals URL extraction). -/
def noEasyApplyOutcome : Outcome :=
  ⟨false, some "easy_apply", some "no_easy_apply", none⟩

/-- Outcome when the modal loop ends without a confirmed submission. -/
def modalStuckOutcome : Outcome :=
  ⟨false, some "easy_apply", some "modal_stuck",
   some "Could not complete Easy Apply modal after 10 steps"⟩

/-- Success outcome of the guided-apply strategy. -/
def easySuccessOutcome : Outcome :=
  ⟨true, some "easy_apply", none, none⟩

/-- Result of a strategy run: the outcome dictionary, the page
interactions performed, the index of the final page view, and the number
of loop iterations entered. -/
structure LoopResult where
  outcome : Outcome
  trace : List EngineAction
  finalIdx : Nat
  iters : Nat
deriving Repr

/--
The Easy Apply multi-step modal loop (`for step in range(10)`, apply_jobs.py
lines 242-312).  `fuel` is the remaining loop iterations, `clicks` the index
of the current page view.  Each iteration: CAPTCHA check first; then resume
upload if a file input is present; then profile field fill; then a visible
submit button is preferred over a next/continue button.  After a submit
click the next view is checked for a success keyword, then for the modal
container having disappeared; with neither, the loop continues.
-/
def easyApplyLoop (env : Nat → PageView) : Nat → Nat → LoopResult
  | 0, clicks => ⟨modalStuckOutcome, [], clicks, 0⟩
  | fuel + 1, clicks =>
    let v := env clicks
    if detect_captcha v then ⟨easyCaptchaDuring, [], clicks, 1⟩
    else
      let pre : List EngineAction :=
        (if v.fileInput then [.uploadResume clicks] else []) ++ [.fillFields clicks]
      if v.submitBtnVisible then
        let v2 := env (clicks + 1)
        if textHasAny v2 easySuccessKeywords then
          ⟨easySuccessOutcome, pre ++ [.clickSubmit clicks], clicks + 1, 1⟩
        else if !v2.modalPresent then
          ⟨easySuccessOutcome, pre ++ [.clickSubmit clicks], clicks + 1, 1⟩
        else
          let r := easyApplyLoop env fuel (clicks + 1)
          ⟨r.outcome, pre ++ .clickSubmit clicks :: r.trace, r.finalIdx, r.iters + 1⟩
      else if v.nextBtnVisible then
        let r := easyApplyLoop env fuel (clicks + 1)
        ⟨r.outcome, pre ++ .clickNext clicks :: r.trace, r.finalIdx, r.iters + 1⟩
      else ⟨modalStuckOutcome, pre, clicks, 1⟩

/--
`apply_linkedin_easy_apply` (apply_jobs.py lines 198-315).  View 0 is the
job page after navigation; clicking the Easy Apply button advances to
view 1 where the modal loop starts with a budget of 10 iterations.
-/
def apply_linkedin_easy_apply (env : Nat → PageView) : LoopResult :=
  let v := env 0
  if detect_captcha v then ⟨easyCaptchaInitial, [], 0, 0⟩
  else if v.authWall then ⟨easyAuthWall, [], 0, 0⟩
  else if v.easyApplyBtn then
    let r := easyApplyLoop env 10 1
    ⟨r.outcome, .clickEasyApply 0 :: r.trace, r.finalIdx, r.iters⟩
  else ⟨noEasyApplyOutcome, [], 0, 0⟩

-- ---------------------------------------------------------------------------
-- Vision provider chain: call_claude with an image (claude_client.py 347-370)
-- ---------------------------------------------------------------------------

/--
The provider loop of `call_claude` for vision prompts: each entry pairs a
provider name with the result of invoking it (`Except.error` models the
provider raising).  Returns the first successful result, or the list of
per-provider failure messages, together with the names actually invoked.
-/
def provider_chain :
    List (String × Except String String) → Except (List String) String × List String
  | [] => (.error [], [])
  | (n, r) :: rest =>
    match r with
    | .ok v => (.ok v, [n])
    | .error e =>
      match provider_chain rest with
      | (.ok v, invoked) => (.ok v, n :: invoked)
      | (.error errs, invoked) => (.error ((n ++ ": " ++ e) :: errs), n :: invoked)

/-- The aggregated RuntimeError message raised when every vision provider
failed (claude_client.py lines 363-370). -/
def noVisionMsg (errs : List String) : String :=
  "No vision-capable LLM is configured.\n" ++
  "Set one of the following in your .env file:\n" ++
  "  ANTHROPIC_API_KEY=sk-ant-...\n" ++
  "  GEMINI_API_KEY=AIza...\n" ++
  "  GITHUB_TOKEN=ghp_...  (needs Copilot subscription)\n" ++
  "Attempted providers:\n" ++
  String.intercalate "\n" (errs.map fun e => "  - " ++ e)

/--
`call_claude` with `image_b64` set (claude_client.py lines 347-370): tries
Anthropic SDK, then Gemini API, then GitHub Copilot, strictly in that
order; the given arguments are the results each provider would produce if
invoked.  Also returns the names of the providers actually invoked.
-/
def call_claude_vision (anthropic gemini copilot : Except String String) :
    Except String String × List String :=
  match provider_chain
      [("Anthropic SDK", anthropic), ("Gemini API", gemini),
       ("GitHub Copilot", copilot)] with
  | (.ok v, invoked) => (.ok v, invoked)
  | (.error errs, invoked) => (.error (noVisionMsg errs), invoked)

-- ---------------------------------------------------------------------------
-- Generic form strategy: apply_external_form (apply_jobs.py lines 369-531)
-- ---------------------------------------------------------------------------

/--
Environment of one `apply_external_form` run.
`agentResult` is the value of `call_agent_browser` (claude_client.py lines
205-329): `none` when no agent CLI is available, otherwise the outcome the
agent path produced — possibly the JSON object parsed verbatim from agent
output, whose `method` key may be absent.
`pages k` is the external form page after `k` engine clicks (view 0 is the
page right after navigation).  `anthropic`, `gemini`, `copilot` are the
vision provider results fed to `call_claude_vision`.  `parse` records what
`json.loads(strip_json_fences raw)` yields on the returned payload:
`none` models the parse raising (the raw text is not a JSON action list).
-/
structure ExtFormEnv where
  agentResult : Option Outcome
  pages : Nat → PageView
  anthropic : Except String String
  gemini : Except String String
  copilot : Except String String
  parse : String → Option (List FormAction)

/-- Failure outcome when a CAPTCHA is on the loaded external form page. -/
def extCaptchaInitial : Outcome :=
  ⟨false, some "external_form", none, some "CAPTCHA detected — apply manually"⟩

/-- Failure outcome when a CAPTCHA is present after the plan executed. -/
def extCaptchaAfter : Outcome :=
  ⟨false, some "external_form", none,
   some "CAPTCHA appeared after submit — apply manually"⟩

/-- Sign-in wall outcome of the external form path. -/
def extAuthWall : Outcome :=
  ⟨false, some "external_form", some "linkedin_auth_required",
   some "LinkedIn sign-in wall — browser session not authenticated"⟩

/-- The unverified blind-fill failure outcome (apply_jobs.py lines 471-472). -/
def visionUnavailableOutcome : Outcome :=
  ⟨false, some "external_form", none,
   some ("Vision unavailable — blind fill attempted. " ++
         "Add ANTHROPIC_API_KEY to .env for full support. Mark as manual_required.")⟩

/-- Success outcome of the blind fill (apply_jobs.py line 473). -/
def blindSuccessOutcome : Outcome :=
  ⟨true, some "external_form_blind", none, none⟩

/--
Execution of a vision action plan (apply_jobs.py lines 481-507): fill and
select act when the label resolves to a field; upload acts when the label
resolves or any file input exists; click acts when a button with the label
text exists and advances the page; unknown kinds and per-action failures
are skipped.  Returns the performed actions and the final page index.
-/
def execPlan (pages : Nat → PageView) : List FormAction → Nat → List EngineAction × Nat
  | [], idx => ([], idx)
  | a :: rest, idx =>
    let v := pages idx
    let hit : Bool :=
      if a.action = "fill" || a.action = "select" then v.hasField a.label
      else if a.action = "upload" then v.hasField a.label || v.fileInput
      else if a.action = "click" then v.hasButtonLabel a.label
      else false
    let idx2 := if a.action = "click" && v.hasButtonLabel a.label then idx + 1 else idx
    let (tr, f) := execPlan pages rest idx2
    ((if hit then [.planStep idx a] else []) ++ tr, f)

/--
The blind-fill tier (apply_jobs.py lines 447-473): fill profile fields by
label, attach the resume to the first file input, click the first
submit-labeled control, then look for a success phrase; without one the
outcome is the unverified vision-unavailable failure.
-/
def blindFillTier (pages : Nat → PageView) : LoopResult :=
  let v := pages 0
  let upload : List EngineAction := if v.fileInput then [.blindUpload 0] else []
  match blindSubmitLabels.find? v.hasButtonLabel with
  | some l =>
    let tr := .blindFillFields 0 :: upload ++ [.blindClick 0 l]
    if textHasAny (pages 1) blindSuccessKeywords then
      ⟨blindSuccessOutcome, tr, 1, 0⟩
    else ⟨visionUnavailableOutcome, tr, 1, 0⟩
  | none =>
    let tr := .blindFillFields 0 :: upload
    if textHasAny (pages 0) blindSuccessKeywords then
      ⟨blindSuccessOutcome, tr, 0, 0⟩
    else ⟨visionUnavailableOutcome, tr, 0, 0⟩

/--
`apply_external_form` (apply_jobs.py lines 369-531).  Tier 1: if an agent
CLI handled the task its result is returned verbatim, with no page
interaction by this engine.  Tier 2: navigate, check CAPTCHA and auth
wall, screenshot, ask the vision chain for an action plan, execute it,
then re-check CAPTCHA and look for a success phrase.  Tier 3 (blind fill)
runs when the vision call raised or its payload did not parse.
-/
def apply_external_form (env : ExtFormEnv) : LoopResult :=
  match env.agentResult with
  | some r => ⟨r, [.agentHandoff], 0, 0⟩
  | none =>
    let v0 := env.pages 0
    if detect_captcha v0 then ⟨extCaptchaInitial, [], 0, 0⟩
    else if v0.authWall then ⟨extAuthWall, [], 0, 0⟩
    else
      match call_claude_vision env.anthropic env.gemini env.copilot with
      | (.error _, _) => blindFillTier env.pages
      | (.ok raw, _) =>
        match env.parse raw with
        | none => blindFillTier env.pages
        | some actions =>
          let (tr, fidx) := execPlan env.pages actions 0
          let vf := env.pages fidx
          if detect_captcha vf then ⟨extCaptchaAfter, tr, fidx, 0⟩
          else if textHasAny vf visionSuccessKeywords then
            ⟨⟨true, some "external_form", none, none⟩, tr, fidx, 0⟩
          else
            ⟨⟨false, some "external_form", none,
              some "No confirmation text detected after submit"⟩, tr, fidx, 0⟩

-- ---------------------------------------------------------------------------
-- Session store (apply_jobs.py lines 546-648)
-- ---------------------------------------------------------------------------

/--
Observable state of one `_load_linkedin_cookies` attempt: whether the
session file exists, whether reading, installing the cookies or the feed
navigation raises, whether the logged-in nav marker is present, and the
URL the feed navigation landed on.
-/
structure SessionEnv where
  fileExists : Bool
  loadRaises : Bool
  navMarker : Bool
  url : String

/-- The backup URL validity check (apply_jobs.py line 569). -/
def feedUrlOk (s : SessionEnv) : Bool :=
  strContains s.url "/feed" && !strContains s.url "login"

/--
`_load_linkedin_cookies` (apply_jobs.py lines 546-580).  Returns the
boolean result and whether the stored session file was deleted: missing
file returns false without deleting; a raise or a failed validity check
deletes the file and returns false; the marker or the feed URL confirms
validity and returns true.
-/
def load_linkedin_cookies (s : SessionEnv) : Bool × Bool :=
  if !s.fileExists then (false, false)
  else if s.loadRaises then (false, true)
  else if s.navMarker then (true, false)
  else if feedUrlOk s then (true, false)
  else (false, true)

/--
Observable state of one `login_to_linkedin` attempt: whether anything in
the credential-submission block raises (with its message), the URL after
the sign-in click, whether a credential-error element is shown (with its
text), and whether the logged-in nav marker is present.
-/
structure LoginEnv where
  fillRaises : Option String
  postUrl : String
  errorEl : Option String
  navMarker : Bool

/-- The `LoginResult` dictionary of `login_to_linkedin`. -/
structure LoginResult where
  success : Bool
  reason? : Option String
  error? : Option String
deriving DecidableEq, Repr

/--
`login_to_linkedin` (apply_jobs.py lines 583-648).  A checkpoint or
challenge URL yields `2fa_required`; a visible error element yields
`wrong_credentials`; landing on feed, mynetwork or seeing the nav marker
is success, and any other destination is also treated as success (the
deliberate unknown-redirect leniency); a raise yields `login_error`.
-/
def login_to_linkedin (e : LoginEnv) : LoginResult :=
  match e.fillRaises with
  | some msg => ⟨false, some "login_error", some msg⟩
  | none =>
    if strContains e.postUrl "checkpoint" || strContains e.postUrl "challenge" then
      ⟨false, some "2fa_required",
       some "LinkedIn requires 2FA — disable it on your account or apply manually"⟩
    else
      match e.errorEl with
      | some msg =>
        ⟨false, some "wrong_credentials",
         some ("LinkedIn login failed: " ++ msg ++
               ". Check LINKEDIN_EMAIL/PASSWORD in .env")⟩
      | none => ⟨true, none, none⟩

-- ---------------------------------------------------------------------------
-- Orchestrator: run_application (apply_jobs.py lines 655-741)
-- ---------------------------------------------------------------------------

/--
Environment of one `run_application` invocation.  `fault` models an
exception escaping the strategy dispatch inside the orchestrator `try`
block (some message); the extracted external URL only selects which form
the generic strategy sees, which `ext` already describes.
-/
structure RunEnv where
  applyUrl : String
  liEmail : String
  liPassword : String
  sess : SessionEnv
  login : LoginEnv
  easyPages : Nat → PageView
  ext : ExtFormEnv
  fault : Option String

/-- Result of one orchestrator run: the outcome, how many times
`login_to_linkedin` was called, whether the stored session file was
deleted, and the engine page interactions performed. -/
structure RunResult where
  outcome : Outcome
  loginCalls : Nat
  sessionDeleted : Bool
  trace : List EngineAction
deriving Repr

/-- The LinkedIn strategy dispatch of `run_application` (lines 715-726):
guided apply, then the generic form on the extracted URL if there was no
Easy Apply button. -/
def linkedinDispatch (env : RunEnv) : Outcome × List EngineAction :=
  let r := apply_linkedin_easy_apply env.easyPages
  if r.outcome.reason? = some "no_easy_apply" then
    let e := apply_external_form env.ext
    (e.outcome, r.trace ++ e.trace)
  else (r.outcome, r.trace)

/--
`run_application` (apply_jobs.py lines 655-741).  On a LinkedIn URL with
both credentials configured it tries the saved session, logs in only when
that fails, short-circuits a 2FA login outcome, and otherwise proceeds to
the strategies even when login failed; any exception inside the dispatch
is caught and converted to a `method=unknown` failure.
-/
def run_application (env : RunEnv) : RunResult :=
  match env.fault with
  | some m => ⟨⟨false, some "unknown", none, some m⟩, 0, false, []⟩
  | none =>
    if strContains env.applyUrl "linkedin.com" = true then
      if stripStr env.liEmail ≠ "" ∧ stripStr env.liPassword ≠ "" then
        match load_linkedin_cookies env.sess with
        | (loadOk, deleted) =>
          if loadOk then
            let (o, tr) := linkedinDispatch env
            ⟨o, 0, deleted, tr⟩
          else
            let lr := login_to_linkedin env.login
            if lr.success = false ∧ lr.reason? = some "2fa_required" then
              ⟨⟨false, some "linkedin", some "2fa_required", lr.error?⟩, 1, deleted, []⟩
            else
              let (o, tr) := linkedinDispatch env
              ⟨o, 1, deleted, tr⟩
      else
        let (o, tr) := linkedinDispatch env
        ⟨o, 0, false, tr⟩
    else
      let e := apply_external_form env.ext
      ⟨e.outcome, 0, false, e.trace⟩

-- ---------------------------------------------------------------------------
-- Concrete fixtures used by witnesses and counterexamples
-- ---------------------------------------------------------------------------

/-- A benign page with readable text and nothing on it. -/
def plainView : PageView :=
  ⟨some "plain page", false, false, false, false, false, true,
   fun _ => false, fun _ => false⟩

/-- An environment showing the benign page forever. -/
def plainPages : Nat → PageView := fun _ => plainView

/-- A page whose body text extraction raises. -/
def emptyTextView : PageView :=
  ⟨none, false, false, false, false, false, true, fun _ => false, fun _ => false⟩

/-- An external-form environment with no agent CLI and no configured
vision provider. -/
def noAgentExt : ExtFormEnv :=
  ⟨none, plainPages, .error "ANTHROPIC_API_KEY not set",
   .error "GEMINI_API_KEY not set", .error "GITHUB_TOKEN not set", fun _ => none⟩

/-- A stored session whose restored state fails the validity check. -/
def staleSess : SessionEnv := ⟨true, false, false, "https://www.linkedin.com/login"⟩

/-- A stored session confirmed valid by the logged-in marker. -/
def validSess : SessionEnv := ⟨true, false, true, "https://www.linkedin.com/feed/"⟩

/-- A login attempt that lands on the feed. -/
def benignLogin : LoginEnv := ⟨none, "https://www.linkedin.com/feed/", none, true⟩

/-- A login attempt redirected to a verification checkpoint. -/
def checkpointLogin : LoginEnv :=
  ⟨none, "https://www.linkedin.com/checkpoint/challenge/abc", none, false⟩

/-- A modal page that only ever offers a Next button. -/
def nextOnlyView : PageView :=
  ⟨some "job step", false, true, false, false, true, true,
   fun _ => false, fun _ => false⟩

/-- An environment whose every view is `nextOnlyView`. -/
def nextOnlyEnv : Nat → PageView := fun _ => nextOnlyView

/-- A LinkedIn job run with credentials, a stale session and a benign
fresh login. -/
def c6RunEnv : RunEnv :=
  ⟨"https://www.linkedin.com/jobs/view/7", "user@example.com", "hunter2",
   staleSess, benignLogin, plainPages, noAgentExt, none⟩

/-- A selection control whose options all miss the probed value. -/
def colorSelect : Field := ⟨"select", ["Red", "Green"], none, false, false, false⟩

/-- A text control whose fill call raises. -/
def raisingField : Field := ⟨"input", [], none, false, true, false⟩

-- ---------------------------------------------------------------------------
-- C9
-- ---------------------------------------------------------------------------

/-- C9: whenever extracting the visible body text raises, `_detect_captcha`
returns false — an unreadable page is never classified as a challenge. -/
theorem claim_C9_unreadable_page_no_challenge :
    ∀ v : PageView, v.bodyText = none → detect_captcha v = false := by
  intro v h
  simp [detect_captcha, h]

/-- Witness for C9 at a concrete unreadable page. -/
theorem claim_C9_witness : detect_captcha emptyTextView = false :=
  claim_C9_unreadable_page_no_challenge emptyTextView rfl

-- ---------------------------------------------------------------------------
-- C10
-- ---------------------------------------------------------------------------

/-- C10: on a selection control with a non-empty value matching no option
case-insensitively, `_fill_field` reports success and leaves the selection
unchanged; it reports failure exactly on empty values, unresolved labels,
or raising page calls. -/
theorem claim_C10_select_no_match_reports_success :
    (∀ (f : Field) (v : String), v ≠ "" → f.tag = "select" → f.evalRaises = false →
      f.options.find? (optionMatches v) = none →
      fill_field (some f) v = (true, some f))
    ∧ (∀ v : String, fill_field none v = (false, none))
    ∧ (∀ (f : Field) (v : String), (fill_field (some f) v).1 = false →
      v = "" ∨ (f.evalRaises || f.fillRaises || f.selectRaises) = true) := by
  refine ⟨?_, ?_, ?_⟩
  · intro f v hv ht he hfind
    simp [fill_field, hv, he, ht, hfind]
  · intro v
    by_cases hv : v = "" <;> simp [fill_field, hv]
  · intro f v h
    by_cases hv : v = ""
    · exact Or.inl hv
    right
    cases he : f.evalRaises with
    | true => simp [he]
    | false =>
      by_cases ht : f.tag = "select"
      · cases hfind : f.options.find? (optionMatches v) with
        | some m =>
          cases hs : f.selectRaises with
          | true => simp [hs]
          | false => simp [fill_field, hv, he, ht, hfind, hs] at h
        | none => simp [fill_field, hv, he, ht, hfind] at h
      · cases hf : f.fillRaises with
        | true => simp [hf]
        | false => simp [fill_field, hv, he, ht, hf] at h

/-- Witness for C10: a non-matching select probed with a non-empty value,
a missing field, and a raising fill, each at concrete inputs. -/
theorem claim_C10_witness :
    fill_field (some colorSelect) "blue" = (true, some colorSelect)
    ∧ fill_field (none : Option Field) "x" = (false, none)
    ∧ ("x" = "" ∨ (raisingField.evalRaises || raisingField.fillRaises ||
        raisingField.selectRaises) = true) :=
  ⟨claim_C10_select_no_match_reports_success.1 colorSelect "blue"
      (by decide) rfl rfl (by decide),
   claim_C10_select_no_match_reports_success.2.1 "x",
   claim_C10_select_no_match_reports_success.2.2 raisingField "x" (by decide)⟩

-- ---------------------------------------------------------------------------
-- C3
-- ---------------------------------------------------------------------------

/-- A list of providers that all raise, with their failure messages. -/
def errProviders (l : List (String × String)) : List (String × Except String String) :=
  l.map fun p => (p.1, Except.error p.2)

/-- C3: when the first providers of the chain raise and the next one
succeeds, the chain returns exactly that result and invokes nothing after
it; when every provider raises, the chain fails with an aggregated error
listing each attempted provider and its reason, in the fixed order
Anthropic SDK, Gemini API, GitHub Copilot. -/
theorem claim_C3_provider_fallback :
    (∀ (pre : List (String × String)) (n v : String)
       (rest : List (String × Except String String)),
       provider_chain (errProviders pre ++ (n, Except.ok v) :: rest)
         = (Except.ok v, pre.map Prod.fst ++ [n]))
    ∧ (∀ l : List (String × String),
       provider_chain (errProviders l)
         = (Except.error (l.map fun p => p.1 ++ ": " ++ p.2), l.map Prod.fst))
    ∧ (∀ ea eg ec : String,
       call_claude_vision (Except.error ea) (Except.error eg) (Except.error ec)
         = (Except.error (noVisionMsg
             ["Anthropic SDK: " ++ ea, "Gemini API: " ++ eg, "GitHub Copilot: " ++ ec]),
            ["Anthropic SDK", "Gemini API", "GitHub Copilot"])) := by
  refine ⟨?_, ?_, fun ea eg ec => rfl⟩
  · intro pre
    induction pre with
    | nil => intro n v rest; rfl
    | cons p t ih =>
      intro n v rest
      simp [errProviders, provider_chain, ih n v rest]
      simp [errProviders] at ih
      simp [ih n v rest]
  · intro l
    induction l with
    | nil => rfl
    | cons p t ih =>
      simp [errProviders, provider_chain] at ih ⊢
      simp [ih]

-- ---------------------------------------------------------------------------
-- C5
-- ---------------------------------------------------------------------------

/-- The modal loop consumes at most its fuel in iterations. -/
lemma easyApplyLoop_iters_le (env : Nat → PageView) :
    ∀ fuel clicks, (easyApplyLoop env fuel clicks).iters ≤ fuel := by
  intro fuel
  induction fuel with
  | zero => intro clicks; simp [easyApplyLoop]
  | succ n ih =>
    intro clicks
    have H := ih (clicks + 1)
    by_cases h1 : detect_captcha (env clicks) = true <;>
      by_cases h2 : (env clicks).submitBtnVisible = true <;>
      by_cases h3 : textHasAny (env (clicks + 1)) easySuccessKeywords = true <;>
      by_cases h4 : (env (clicks + 1)).modalPresent = true <;>
      by_cases h5 : (env clicks).nextBtnVisible = true <;>
      simp [easyApplyLoop, h1, h2, h3, h4, h5] <;> omega

/-- A modal whose every step offers only a continue or next control. -/
def nextOnly (env : Nat → PageView) : Prop :=
  ∀ k, detect_captcha (env k) = false ∧ (env k).submitBtnVisible = false
    ∧ (env k).nextBtnVisible = true

/-- On a next-only modal the loop consumes all its fuel and ends stuck. -/
lemma easyApplyLoop_nextOnly (env : Nat → PageView) (h : nextOnly env) :
    ∀ fuel clicks, (easyApplyLoop env fuel clicks).outcome = modalStuckOutcome
      ∧ (easyApplyLoop env fuel clicks).iters = fuel := by
  intro fuel
  induction fuel with
  | zero => intro clicks; exact ⟨rfl, rfl⟩
  | succ n ih =>
    intro clicks
    obtain ⟨h1, h2, h3⟩ := h clicks
    have H := ih (clicks + 1)
    simp [easyApplyLoop, h1, h2, h3, H.1, H.2]

/-- C5: the guided-apply loop runs at most 10 iterations on any simulated
page sequence, and on a sequence that only ever offers a continue or next
control it runs exactly 10 iterations and terminates with the modal-stuck
failure — it never loops indefinitely. -/
theorem claim_C5_step_budget :
    ∀ env : Nat → PageView,
      (apply_linkedin_easy_apply env).iters ≤ 10
      ∧ (nextOnly env → (env 0).authWall = false → (env 0).easyApplyBtn = true →
         (apply_linkedin_easy_apply env).outcome = modalStuckOutcome
         ∧ (apply_linkedin_easy_apply env).iters = 10) := by
  intro env
  constructor
  · by_cases h1 : detect_captcha (env 0) = true <;>
      by_cases h2 : (env 0).authWall = true <;>
      by_cases h3 : (env 0).easyApplyBtn = true <;>
      simp [apply_linkedin_easy_apply, h1, h2, h3, easyApplyLoop_iters_le env 10 1]
  · intro hn hw hb
    obtain ⟨h1, -, -⟩ := hn 0
    have H := easyApplyLoop_nextOnly env hn 10 1
    simp [apply_linkedin_easy_apply, h1, hw, hb, H.1, H.2]

/-- Witness for C5 on a concrete next-only modal. -/
theorem claim_C5_witness :
    (apply_linkedin_easy_apply nextOnlyEnv).iters ≤ 10
    ∧ (apply_linkedin_easy_apply nextOnlyEnv).outcome = modalStuckOutcome
    ∧ (apply_linkedin_easy_apply nextOnlyEnv).iters = 10 :=
  ⟨(claim_C5_step_budget nextOnlyEnv).1,
   ((claim_C5_step_budget nextOnlyEnv).2 (fun _ => ⟨rfl, rfl, rfl⟩) rfl rfl).1,
   ((claim_C5_step_budget nextOnlyEnv).2 (fun _ => ⟨rfl, rfl, rfl⟩) rfl rfl).2⟩

-- ---------------------------------------------------------------------------
-- C6
-- ---------------------------------------------------------------------------

/-- C6: a stored session failing the authenticated-landing-page check is
deleted and reported invalid; the load reports validity only on the
logged-in marker or the confirming feed URL; and on a LinkedIn job with
credentials configured, a failed load is followed by exactly one fresh
login attempt. -/
theorem claim_C6_session_invalidation :
    (∀ s : SessionEnv, s.fileExists = true → s.loadRaises = false →
      s.navMarker = false → feedUrlOk s = false →
      load_linkedin_cookies s = (false, true))
    ∧ (∀ s : SessionEnv, (load_linkedin_cookies s).1 = true →
      s.navMarker = true ∨ feedUrlOk s = true)
    ∧ (∀ env : RunEnv, env.fault = none →
      strContains env.applyUrl "linkedin.com" = true →
      stripStr env.liEmail ≠ "" ∧ stripStr env.liPassword ≠ "" →
      (load_linkedin_cookies env.sess).1 = false →
      (run_application env).loginCalls = 1
      ∧ (run_application env).sessionDeleted = (load_linkedin_cookies env.sess).2) := by
  refine ⟨?_, ?_, ?_⟩
  · intro s h1 h2 h3 h4
    simp [load_linkedin_cookies, h1, h2, h3, h4]
  · intro s h
    by_cases h1 : s.fileExists = true
    · by_cases h2 : s.loadRaises = true
      · simp [load_linkedin_cookies, h1, h2] at h
      · by_cases h3 : s.navMarker = true
        · exact Or.inl h3
        · by_cases h4 : feedUrlOk s = true
          · exact Or.inr h4
          · simp [load_linkedin_cookies, h1, h2, h3, h4] at h
    · simp [load_linkedin_cookies, h1] at h
  · intro env hf hurl hcred hload
    rcases hlc : load_linkedin_cookies env.sess with ⟨a, b⟩
    rw [hlc] at hload
    have ha : a = false := hload
    subst ha
    by_cases hc : (login_to_linkedin env.login).success = false
      ∧ (login_to_linkedin env.login).reason? = some "2fa_required" <;>
      simp [run_application, hf, hurl, hcred, hlc, hc]

/-- Witness for C6: a concrete stale session is deleted and invalid, a
concrete marker-valid session is confirmed, and the concrete orchestrator
run performs exactly one login. -/
theorem claim_C6_witness :
    load_linkedin_cookies staleSess = (false, true)
    ∧ (validSess.navMarker = true ∨ feedUrlOk validSess = true)
    ∧ (run_application c6RunEnv).loginCalls = 1
    ∧ (run_application c6RunEnv).sessionDeleted = (load_linkedin_cookies c6RunEnv.sess).2 :=
  ⟨claim_C6_session_invalidation.1 staleSess rfl rfl rfl (by decide),
   claim_C6_session_invalidation.2.1 validSess (by decide),
   (claim_C6_session_invalidation.2.2 c6RunEnv rfl (by decide)
     ⟨by decide, by decide⟩ (by decide)).1,
   (claim_C6_session_invalidation.2.2 c6RunEnv rfl (by decide)
     ⟨by decide, by decide⟩ (by decide)).2⟩

-- ---------------------------------------------------------------------------
-- C7
-- ---------------------------------------------------------------------------

/-- C7: when the post-login URL matches a verification checkpoint, the
orchestrator returns the two-factor failure outcome with exactly one login
attempt and no page interaction at all — no retry, no apply strategy. -/
theorem claim_C7_two_factor_short_circuit :
    ∀ env : RunEnv, env.fault = none →
      strContains env.applyUrl "linkedin.com" = true →
      stripStr env.liEmail ≠ "" ∧ stripStr env.liPassword ≠ "" →
      (load_linkedin_cookies env.sess).1 = false →
      env.login.fillRaises = none →
      (strContains env.login.postUrl "checkpoint"
        || strContains env.login.postUrl "challenge") = true →
      run_application env =
        ⟨⟨false, some "linkedin", some "2fa_required",
          some "LinkedIn requires 2FA — disable it on your account or apply manually"⟩,
         1, (load_linkedin_cookies env.sess).2, []⟩ := by
  intro env hf hurl hcred hload hraise hck
  have hlr : login_to_linkedin env.login =
      ⟨false, some "2fa_required",
       some "LinkedIn requires 2FA — disable it on your account or apply manually"⟩ := by
    simp [login_to_linkedin, hraise, hck]
  rcases hlc : load_linkedin_cookies env.sess with ⟨a, b⟩
  rw [hlc] at hload
  have ha : a = false := hload
  subst ha
  simp [run_application, hf, hurl, hcred, hlc, hlr]

/-- A LinkedIn job run whose fresh login hits a verification checkpoint. -/
def c7RunEnv : RunEnv :=
  ⟨"https://www.linkedin.com/jobs/view/42", "user@example.com", "hunter2",
   staleSess, checkpointLogin, plainPages, noAgentExt, none⟩

/-- Witness for C7 at the concrete checkpoint run. -/
theorem claim_C7_witness :
    run_application c7RunEnv =
      ⟨⟨false, some "linkedin", some "2fa_required",
        some "LinkedIn requires 2FA — disable it on your account or apply manually"⟩,
       1, true, []⟩ :=
  claim_C7_two_factor_short_circuit c7RunEnv rfl (by decide)
    ⟨by decide, by decide⟩ (by decide) rfl (by decide)

-- ---------------------------------------------------------------------------
-- C4
-- ---------------------------------------------------------------------------

/-- A benign external form page offering only a Next button. -/
def c4Page0 : PageView :=
  ⟨some "application form", false, false, false, false, false, true,
   fun _ => false, fun l => l == "Next"⟩

/-- A mid-plan page showing a challenge phrase and an Email field. -/
def c4Page1 : PageView :=
  ⟨some "please complete this security check", false, false, false, false, false, true,
   fun l => l == "Email", fun _ => false⟩

/-- Pages of the mid-plan challenge scenario. -/
def c4Pages : Nat → PageView := fun k => if k = 0 then c4Page0 else c4Page1

/-- A two-step vision plan: click Next, then fill the Email field. -/
def c4Plan : List FormAction := [⟨"click", "Next", ""⟩, ⟨"fill", "Email", "a@b.com"⟩]

/-- External-form environment whose vision plan walks onto a challenge
page and then fills a field there. -/
def c4CexExt : ExtFormEnv :=
  ⟨none, c4Pages, .ok "plan", .error "no key", .error "no key", fun _ => some c4Plan⟩

/-- Counterexample to C4 as stated: during vision-plan execution the
engine fills a field on a page whose body shows a challenge phrase, and
only afterwards returns the challenge failure — so a challenge page does
receive a fill before the challenge-detected return. -/
theorem claim_C4_counterexample :
    detect_captcha (c4CexExt.pages 1) = true
    ∧ EngineAction.planStep 1 ⟨"fill", "Email", "a@b.com"⟩ ∈ (apply_external_form c4CexExt).trace
    ∧ (apply_external_form c4CexExt).outcome = extCaptchaAfter := by
  refine ⟨by decide, by decide, by decide⟩

/-- C4 (amended): when the initially loaded page shows a challenge
phrase, the guided-apply strategy — and the generic-form strategy when no
agent CLI handled the task — returns the challenge failure having
performed no field fill or click at all, and the guided-apply loop
re-checks before each step so a challenge at any step aborts that
iteration before its fills. -/
theorem claim_C4_challenge_short_circuit :
    (∀ env : Nat → PageView, detect_captcha (env 0) = true →
      apply_linkedin_easy_apply env = ⟨easyCaptchaInitial, [], 0, 0⟩)
    ∧ (∀ (env : Nat → PageView) (fuel clicks : Nat), detect_captcha (env clicks) = true →
      easyApplyLoop env (fuel + 1) clicks = ⟨easyCaptchaDuring, [], clicks, 1⟩)
    ∧ (∀ e : ExtFormEnv, e.agentResult = none → detect_captcha (e.pages 0) = true →
      apply_external_form e = ⟨extCaptchaInitial, [], 0, 0⟩) := by
  refine ⟨?_, ?_, ?_⟩
  · intro env h
    simp [apply_linkedin_easy_apply, h]
  · intro env fuel clicks h
    simp [easyApplyLoop, h]
  · intro e ha h
    simp [apply_external_form, ha, h]

/-- A page whose body shows a challenge phrase. -/
def captchaView : PageView :=
  ⟨some "Please verify you are human", false, false, false, false, false, true,
   fun _ => false, fun _ => false⟩

/-- An environment whose every view shows the challenge page. -/
def captchaPages : Nat → PageView := fun _ => captchaView

/-- An external-form environment whose landing page shows a challenge. -/
def captchaExt : ExtFormEnv :=
  ⟨none, captchaPages, .error "a", .error "b", .error "c", fun _ => none⟩

/-- Witness for C4 at concrete challenge pages in all three positions. -/
theorem claim_C4_witness :
    apply_linkedin_easy_apply captchaPages = ⟨easyCaptchaInitial, [], 0, 0⟩
    ∧ easyApplyLoop captchaPages 10 4 = ⟨easyCaptchaDuring, [], 4, 1⟩
    ∧ apply_external_form captchaExt = ⟨extCaptchaInitial, [], 0, 0⟩ :=
  ⟨claim_C4_challenge_short_circuit.1 captchaPages (by decide),
   claim_C4_challenge_short_circuit.2.1 captchaPages 9 4 (by decide),
   claim_C4_challenge_short_circuit.2.2 captchaExt rfl (by decide)⟩

-- ---------------------------------------------------------------------------
-- C8
-- ---------------------------------------------------------------------------

/-- Whether the vision tier failed to yield an action plan: every provider
raised, or the successful payload did not parse as a JSON action list. -/
def visionPlanFailed (e : ExtFormEnv) : Bool :=
  match call_claude_vision e.anthropic e.gemini e.copilot with
  | (.error _, _) => true
  | (.ok raw, _) => (e.parse raw).isNone

/-- Vision-plan execution emits only plan-step actions. -/
lemma execPlan_no_blind (pages : Nat → PageView) :
    ∀ (actions : List FormAction) (idx n : Nat),
      EngineAction.blindFillFields n ∉ (execPlan pages actions idx).1 := by
  intro actions
  induction actions with
  | nil => intro idx n; simp [execPlan]
  | cons a rest ih =>
    intro idx n
    simp only [execPlan, List.mem_append]
    push_neg
    constructor
    · split <;> simp
    · exact ih _ n

/-- The blind-fill tier always records its field fill, returns the
unverified failure without a success phrase, and succeeds only with one. -/
lemma blindFillTier_facts (pages : Nat → PageView) :
    EngineAction.blindFillFields 0 ∈ (blindFillTier pages).trace
    ∧ (textHasAny (pages (blindFillTier pages).finalIdx) blindSuccessKeywords = false →
       (blindFillTier pages).outcome = visionUnavailableOutcome)
    ∧ ((blindFillTier pages).outcome = blindSuccessOutcome →
       textHasAny (pages (blindFillTier pages).finalIdx) blindSuccessKeywords = true) := by
  cases hfind : blindSubmitLabels.find? (pages 0).hasButtonLabel with
  | some l =>
    by_cases hk : textHasAny (pages 1) blindSuccessKeywords = true <;>
      simp [blindFillTier, hfind, hk, blindSuccessOutcome, visionUnavailableOutcome]
  | none =>
    by_cases hk : textHasAny (pages 0) blindSuccessKeywords = true <;>
      simp [blindFillTier, hfind, hk, blindSuccessOutcome, visionUnavailableOutcome]

/-- C8 (amended): with no agent CLI and no challenge or auth wall on the
loaded page, the blind fill runs exactly when the vision call raised or
its payload failed to parse as an action list; without a success phrase
afterwards the outcome is the unverified vision-unavailable failure, and
the blind attempt succeeds only with a success phrase on the final page. -/
theorem claim_C8_blind_fill_tier :
    ∀ e : ExtFormEnv, e.agentResult = none →
      detect_captcha (e.pages 0) = false → (e.pages 0).authWall = false →
      ((EngineAction.blindFillFields 0 ∈ (apply_external_form e).trace)
        ↔ visionPlanFailed e = true)
      ∧ (visionPlanFailed e = true →
         textHasAny (e.pages (apply_external_form e).finalIdx) blindSuccessKeywords = false →
         (apply_external_form e).outcome = visionUnavailableOutcome)
      ∧ ((apply_external_form e).outcome = blindSuccessOutcome →
         textHasAny (e.pages (apply_external_form e).finalIdx) blindSuccessKeywords = true) := by
  intro e ha h1 h2
  rcases hv : call_claude_vision e.anthropic e.gemini e.copilot with ⟨res, inv⟩
  cases res with
  | error msg =>
    have hvp : visionPlanFailed e = true := by simp [visionPlanFailed, hv]
    have he : apply_external_form e = blindFillTier e.pages := by
      simp [apply_external_form, ha, h1, h2, hv]
    rw [he, hvp]
    obtain ⟨b1, b2, b3⟩ := blindFillTier_facts e.pages
    exact ⟨⟨fun _ => rfl, fun _ => b1⟩, fun _ => b2, b3⟩
  | ok raw =>
    cases hp : e.parse raw with
    | none =>
      have hvp : visionPlanFailed e = true := by simp [visionPlanFailed, hv, hp]
      have he : apply_external_form e = blindFillTier e.pages := by
        simp [apply_external_form, ha, h1, h2, hv, hp]
      rw [he, hvp]
      obtain ⟨b1, b2, b3⟩ := blindFillTier_facts e.pages
      exact ⟨⟨fun _ => rfl, fun _ => b1⟩, fun _ => b2, b3⟩
    | some actions =>
      have hvp : visionPlanFailed e = false := by simp [visionPlanFailed, hv, hp]
      rcases hex : execPlan e.pages actions 0 with ⟨tr, fidx⟩
      have htr : (apply_external_form e).trace = tr := by
        by_cases hc : detect_captcha (e.pages fidx) = true
        · simp [apply_external_form, ha, h1, h2, hv, hp, hex, hc]
        · by_cases hk : textHasAny (e.pages fidx) visionSuccessKeywords = true <;>
            simp [apply_external_form, ha, h1, h2, hv, hp, hex, hc, hk]
      have hnb : EngineAction.blindFillFields 0 ∉ tr := by
        have := execPlan_no_blind e.pages actions 0 0
        rw [hex] at this
        exact this
      refine ⟨?_, ?_, ?_⟩
      · rw [htr, hvp]
        exact ⟨fun h => absurd h hnb, fun h => by cases h⟩
      · intro h; rw [hvp] at h; cases h
      · intro h
        have : (apply_external_form e).outcome = extCaptchaAfter
            ∨ (apply_external_form e).outcome = ⟨true, some "external_form", none, none⟩
            ∨ (apply_external_form e).outcome
              = ⟨false, some "external_form", none,
                 some "No confirmation text detected after submit"⟩ := by
          by_cases hc : detect_captcha (e.pages fidx) = true
          · simp [apply_external_form, ha, h1, h2, hv, hp, hex, hc]
          · by_cases hk : textHasAny (e.pages fidx) visionSuccessKeywords = true <;>
              simp [apply_external_form, ha, h1, h2, hv, hp, hex, hc, hk]
        rcases this with h4 | h4 | h4 <;> rw [h4] at h <;>
          simp [extCaptchaAfter, blindSuccessOutcome] at h

/-- An external-form environment where the first vision provider returns
an unparseable payload. -/
def c8CexExt : ExtFormEnv :=
  ⟨none, plainPages, .ok "this is not json", .error "g", .error "c", fun _ => none⟩

/-- Counterexample to C8 as stated: a vision provider succeeded (the call
did not raise), yet the blind fill still ran because the returned payload
was not a parseable action list. -/
theorem claim_C8_counterexample :
    c8CexExt.anthropic = Except.ok "this is not json"
    ∧ EngineAction.blindFillFields 0 ∈ (apply_external_form c8CexExt).trace :=
  ⟨rfl, by decide⟩

/-- Witness for C8 at the concrete unparseable-payload environment. -/
theorem claim_C8_witness :
    EngineAction.blindFillFields 0 ∈ (apply_external_form c8CexExt).trace
    ∧ (apply_external_form c8CexExt).outcome = visionUnavailableOutcome :=
  ⟨((claim_C8_blind_fill_tier c8CexExt rfl (by decide) rfl).1).mpr (by decide),
   (claim_C8_blind_fill_tier c8CexExt rfl (by decide) rfl).2.1 (by decide) (by decide)⟩

-- ---------------------------------------------------------------------------
-- C2
-- ---------------------------------------------------------------------------

/-- Every outcome of the modal loop carries the guided-apply method. -/
lemma easyApplyLoop_method (env : Nat → PageView) :
    ∀ fuel clicks, (easyApplyLoop env fuel clicks).outcome.method? = some "easy_apply" := by
  intro fuel
  induction fuel with
  | zero => intro clicks; rfl
  | succ n ih =>
    intro clicks
    have H := ih (clicks + 1)
    by_cases h1 : detect_captcha (env clicks) = true <;>
      by_cases h2 : (env clicks).submitBtnVisible = true <;>
      by_cases h3 : textHasAny (env (clicks + 1)) easySuccessKeywords = true <;>
      by_cases h4 : (env (clicks + 1)).modalPresent = true <;>
      by_cases h5 : (env clicks).nextBtnVisible = true <;>
      simp [easyApplyLoop, h1, h2, h3, h4, h5, easyCaptchaDuring, easySuccessOutcome,
        modalStuckOutcome, H]

/-- Every guided-apply outcome carries the guided-apply method. -/
lemma apply_easy_method (env : Nat → PageView) :
    (apply_linkedin_easy_apply env).outcome.method? = some "easy_apply" := by
  by_cases h1 : detect_captcha (env 0) = true <;>
    by_cases h2 : (env 0).authWall = true <;>
    by_cases h3 : (env 0).easyApplyBtn = true <;>
    simp [apply_linkedin_easy_apply, h1, h2, h3, easyCaptchaInitial, easyAuthWall,
      noEasyApplyOutcome, easyApplyLoop_method env 10 1]

/-- The generic-form strategy either sets a method or passes the agent
result through verbatim. -/
lemma apply_external_method (e : ExtFormEnv) :
    (apply_external_form e).outcome.method?.isSome = true
    ∨ e.agentResult = some (apply_external_form e).outcome := by
  cases ha : e.agentResult with
  | some r =>
    right
    simp [apply_external_form, ha]
  | none =>
    left
    by_cases h1 : detect_captcha (e.pages 0) = true
    · simp [apply_external_form, ha, h1, extCaptchaInitial]
    by_cases h2 : (e.pages 0).authWall = true
    · simp [apply_external_form, ha, h1, h2, extAuthWall]
    have hblind : ∀ pages, (blindFillTier pages).outcome.method?.isSome = true := by
      intro pages
      cases hfind : blindSubmitLabels.find? (pages 0).hasButtonLabel with
      | some l =>
        by_cases hk : textHasAny (pages 1) blindSuccessKeywords = true <;>
          simp [blindFillTier, hfind, hk, blindSuccessOutcome, visionUnavailableOutcome]
      | none =>
        by_cases hk : textHasAny (pages 0) blindSuccessKeywords = true <;>
          simp [blindFillTier, hfind, hk, blindSuccessOutcome, visionUnavailableOutcome]
    rcases hv : call_claude_vision e.anthropic e.gemini e.copilot with ⟨res, inv⟩
    cases res with
    | error msg => simp [apply_external_form, ha, h1, h2, hv, hblind]
    | ok raw =>
      cases hp : e.parse raw with
      | none => simp [apply_external_form, ha, h1, h2, hv, hp, hblind]
      | some actions =>
        rcases hex : execPlan e.pages actions 0 with ⟨tr, fidx⟩
        by_cases hc : detect_captcha (e.pages fidx) = true
        · simp [apply_external_form, ha, h1, h2, hv, hp, hex, hc, extCaptchaAfter]
        · by_cases hk : textHasAny (e.pages fidx) visionSuccessKeywords = true <;>
            simp [apply_external_form, ha, h1, h2, hv, hp, hex, hc, hk]

/-- The LinkedIn dispatch either sets a method or passes the agent result
through verbatim. -/
lemma linkedinDispatch_method (env : RunEnv) :
    (linkedinDispatch env).1.method?.isSome = true
    ∨ env.ext.agentResult = some (linkedinDispatch env).1 := by
  unfold linkedinDispatch
  by_cases h : (apply_linkedin_easy_apply env.easyPages).outcome.reason? = some "no_easy_apply"
  · simpa [h] using apply_external_method env.ext
  · simp [h, apply_easy_method]

/-- C2 (amended): every orchestrator path yields an outcome carrying a
method — except the agent-handoff passthrough, which returns the JSON
parsed from agent output verbatim and may lack the method key — and any
exception inside the strategy dispatch is converted at the orchestrator
boundary into a failure outcome with the unknown method. -/
theorem claim_C2_outcome_shape :
    (∀ env : RunEnv, (run_application env).outcome.method?.isSome = true
      ∨ env.ext.agentResult = some (run_application env).outcome)
    ∧ (∀ (env : RunEnv) (m : String), env.fault = some m →
      run_application env = ⟨⟨false, some "unknown", none, some m⟩, 0, false, []⟩) := by
  constructor
  · intro env
    cases hf : env.fault with
    | some m => left; simp [run_application, hf]
    | none =>
      by_cases hurl : strContains env.applyUrl "linkedin.com" = true
      · by_cases hcred : stripStr env.liEmail ≠ "" ∧ stripStr env.liPassword ≠ ""
        · rcases hlc : load_linkedin_cookies env.sess with ⟨a, b⟩
          cases a with
          | true =>
            have := linkedinDispatch_method env
            rcases this with h | h
            · left; simpa [run_application, hf, hurl, hcred, hlc] using h
            · right; simpa [run_application, hf, hurl, hcred, hlc] using h
          | false =>
            by_cases h2fa : (login_to_linkedin env.login).success = false
              ∧ (login_to_linkedin env.login).reason? = some "2fa_required"
            · left; simp [run_application, hf, hurl, hcred, hlc, h2fa]
            · have := linkedinDispatch_method env
              rcases this with h | h
              · left; simpa [run_application, hf, hurl, hcred, hlc, h2fa] using h
              · right; simpa [run_application, hf, hurl, hcred, hlc, h2fa] using h
        · have := linkedinDispatch_method env
          rcases this with h | h
          · left; simpa [run_application, hf, hurl, hcred] using h
          · right; simpa [run_application, hf, hurl, hcred] using h
      · have := apply_external_method env.ext
        rcases this with h | h
        · left; simpa [run_application, hf, hurl] using h
        · right; simpa [run_application, hf, hurl] using h
  · intro env m hf
    simp [run_application, hf]

/-- The outcome parsed from bare agent output `JSON {success: true}`:
no method key at all. -/
def agentBareJson : Outcome := ⟨true, none, none, none⟩

/-- An external-form environment whose agent CLI returned only the bare
success JSON. -/
def c2CexExt : ExtFormEnv :=
  ⟨some agentBareJson, plainPages, .error "a", .error "b", .error "c", fun _ => none⟩

/-- An orchestrator run over a non-LinkedIn job using the bare-JSON agent. -/
def c2CexRun : RunEnv :=
  ⟨"https://jobs.example.com/apply/55", "", "", staleSess, benignLogin,
   plainPages, c2CexExt, none⟩

/-- Counterexample to C2 as stated: the orchestrator can return an outcome
with no method field at all, by passing the agent JSON through verbatim. -/
theorem claim_C2_counterexample :
    (run_application c2CexRun).outcome.method? = none
    ∧ (run_application c2CexRun).outcome.success = true := by
  exact ⟨by decide, by decide⟩

/-- A run whose strategy dispatch raises. -/
def faultRunEnv : RunEnv :=
  ⟨"https://jobs.example.com/apply/55", "", "", staleSess, benignLogin,
   plainPages, c2CexExt, some "browser crashed"⟩

/-- Witness for C2 at the concrete raising run. -/
theorem claim_C2_witness :
    run_application faultRunEnv
      = ⟨⟨false, some "unknown", none, some "browser crashed"⟩, 0, false, []⟩ :=
  claim_C2_outcome_shape.2 faultRunEnv "browser crashed" rfl

-- ---------------------------------------------------------------------------
-- C1
-- ---------------------------------------------------------------------------

/-- Prepending to a list with a known last element keeps that last element. -/
lemma getLast?_cons_of_getLast? {α : Type} (x : α) {l : List α} {y : α}
    (h : l.getLast? = some y) : (x :: l).getLast? = some y := by
  cases l with
  | nil => simp at h
  | cons b t => rw [List.getLast?_cons_cons]; exact h

/-- A successful modal loop ends on a page showing a success keyword or
lacking the modal container, and its last interaction is the submit click
onto that page. -/
lemma easyApplyLoop_success_evidence (env : Nat → PageView) :
    ∀ fuel clicks,
      (easyApplyLoop env fuel clicks).outcome.success = true →
      (textHasAny (env (easyApplyLoop env fuel clicks).finalIdx) easySuccessKeywords = true
        ∨ (env (easyApplyLoop env fuel clicks).finalIdx).modalPresent = false)
      ∧ (easyApplyLoop env fuel clicks).trace.getLast?
          = some (EngineAction.clickSubmit ((easyApplyLoop env fuel clicks).finalIdx - 1)) := by
  intro fuel
  induction fuel with
  | zero =>
    intro clicks h
    simp [easyApplyLoop, modalStuckOutcome] at h
  | succ n ih =>
    intro clicks h
    by_cases h1 : detect_captcha (env clicks) = true
    · simp [easyApplyLoop, h1, easyCaptchaDuring] at h
    by_cases h2 : (env clicks).submitBtnVisible = true
    · by_cases h3 : textHasAny (env (clicks + 1)) easySuccessKeywords = true
      · constructor
        · simp [easyApplyLoop, h1, h2, h3]
        · simp [easyApplyLoop, h1, h2, h3, List.getLast?_append_cons]
      by_cases h4 : (env (clicks + 1)).modalPresent = true
      · have hs : (easyApplyLoop env n (clicks + 1)).outcome.success = true := by
          simpa [easyApplyLoop, h1, h2, h3, h4] using h
        obtain ⟨hev, hlast⟩ := ih (clicks + 1) hs
        constructor
        · simpa [easyApplyLoop, h1, h2, h3, h4] using hev
        · simp [easyApplyLoop, h1, h2, h3, h4, List.getLast?_append_cons]
          exact getLast?_cons_of_getLast? _ hlast
      · constructor
        · simp [easyApplyLoop, h1, h2, h3, h4]
        · simp [easyApplyLoop, h1, h2, h3, h4, List.getLast?_append_cons]
    · by_cases h5 : (env clicks).nextBtnVisible = true
      · have hs : (easyApplyLoop env n (clicks + 1)).outcome.success = true := by
          simpa [easyApplyLoop, h1, h2, h5] using h
        obtain ⟨hev, hlast⟩ := ih (clicks + 1) hs
        constructor
        · simpa [easyApplyLoop, h1, h2, h5] using hev
        · simp [easyApplyLoop, h1, h2, h5, List.getLast?_append_cons]
          exact getLast?_cons_of_getLast? _ hlast
      · simp [easyApplyLoop, h1, h2, h5, modalStuckOutcome] at h

/-- A successful guided apply carries the same evidence through the
wrapper, whose trace starts with the Easy Apply entry click. -/
lemma apply_easy_success_evidence (env : Nat → PageView)
    (h : (apply_linkedin_easy_apply env).outcome.success = true) :
    (textHasAny (env (apply_linkedin_easy_apply env).finalIdx) easySuccessKeywords = true
      ∨ (env (apply_linkedin_easy_apply env).finalIdx).modalPresent = false)
    ∧ (apply_linkedin_easy_apply env).trace.getLast?
        = some (EngineAction.clickSubmit ((apply_linkedin_easy_apply env).finalIdx - 1)) := by
  by_cases h1 : detect_captcha (env 0) = true
  · simp [apply_linkedin_easy_apply, h1, easyCaptchaInitial] at h
  by_cases h2 : (env 0).authWall = true
  · simp [apply_linkedin_easy_apply, h1, h2, easyAuthWall] at h
  by_cases h3 : (env 0).easyApplyBtn = true
  · have hs : (easyApplyLoop env 10 1).outcome.success = true := by
      simpa [apply_linkedin_easy_apply, h1, h2, h3] using h
    obtain ⟨hev, hlast⟩ := easyApplyLoop_success_evidence env 10 1 hs
    constructor
    · simpa [apply_linkedin_easy_apply, h1, h2, h3] using hev
    · simp [apply_linkedin_easy_apply, h1, h2, h3]
      exact getLast?_cons_of_getLast? _ hlast
  · simp [apply_linkedin_easy_apply, h1, h2, h3, noEasyApplyOutcome] at h

/-- A successful blind fill found a success keyword on its final page. -/
lemma blindFillTier_success_evidence (pages : Nat → PageView)
    (h : (blindFillTier pages).outcome.success = true) :
    textHasAny (pages (blindFillTier pages).finalIdx) blindSuccessKeywords = true := by
  cases hfind : blindSubmitLabels.find? (pages 0).hasButtonLabel with
  | some l =>
    by_cases hk : textHasAny (pages 1) blindSuccessKeywords = true
    · simp [blindFillTier, hfind, hk]
    · simp [blindFillTier, hfind, hk, visionUnavailableOutcome] at h
  | none =>
    by_cases hk : textHasAny (pages 0) blindSuccessKeywords = true
    · simp [blindFillTier, hfind, hk]
    · simp [blindFillTier, hfind, hk, visionUnavailableOutcome] at h

/-- A successful generic-form run is the agent passthrough or found a
success keyword on its final page. -/
lemma apply_external_success_evidence (e : ExtFormEnv)
    (h : (apply_external_form e).outcome.success = true) :
    e.agentResult = some (apply_external_form e).outcome
    ∨ textHasAny (e.pages (apply_external_form e).finalIdx) visionSuccessKeywords = true
    ∨ textHasAny (e.pages (apply_external_form e).finalIdx) blindSuccessKeywords = true := by
  cases ha : e.agentResult with
  | some r => left; simp [apply_external_form, ha]
  | none =>
    right
    by_cases h1 : detect_captcha (e.pages 0) = true
    · simp [apply_external_form, ha, h1, extCaptchaInitial] at h
    by_cases h2 : (e.pages 0).authWall = true
    · simp [apply_external_form, ha, h1, h2, extAuthWall] at h
    rcases hv : call_claude_vision e.anthropic e.gemini e.copilot with ⟨res, inv⟩
    cases res with
    | error msg =>
      have he : apply_external_form e = blindFillTier e.pages := by
        simp [apply_external_form, ha, h1, h2, hv]
      rw [he] at h ⊢
      exact Or.inr (blindFillTier_success_evidence e.pages h)
    | ok raw =>
      cases hp : e.parse raw with
      | none =>
        have he : apply_external_form e = blindFillTier e.pages := by
          simp [apply_external_form, ha, h1, h2, hv, hp]
        rw [he] at h ⊢
        exact Or.inr (blindFillTier_success_evidence e.pages h)
      | some actions =>
        rcases hex : execPlan e.pages actions 0 with ⟨tr, fidx⟩
        by_cases hc : detect_captcha (e.pages fidx) = true
        · simp [apply_external_form, ha, h1, h2, hv, hp, hex, hc, extCaptchaAfter] at h
        by_cases hk : textHasAny (e.pages fidx) visionSuccessKeywords = true
        · left
          simp [apply_external_form, ha, h1, h2, hv, hp, hex, hc, hk]
        · simp [apply_external_form, ha, h1, h2, hv, hp, hex, hc, hk] at h

/-- C1 (amended): a guided-apply success always ends with a submit click
and explicit evidence on the page right after it — a success keyword or
the modal container gone; a generic-form success either carries a success
keyword on its final page or is the delegated agent's own structured
result passed through verbatim. -/
theorem claim_C1_no_false_success :
    (∀ env : Nat → PageView, (apply_linkedin_easy_apply env).outcome.success = true →
      (textHasAny (env (apply_linkedin_easy_apply env).finalIdx) easySuccessKeywords = true
        ∨ (env (apply_linkedin_easy_apply env).finalIdx).modalPresent = false)
      ∧ (apply_linkedin_easy_apply env).trace.getLast?
          = some (EngineAction.clickSubmit ((apply_linkedin_easy_apply env).finalIdx - 1)))
    ∧ (∀ e : ExtFormEnv, (apply_external_form e).outcome.success = true →
      e.agentResult = some (apply_external_form e).outcome
      ∨ textHasAny (e.pages (apply_external_form e).finalIdx) visionSuccessKeywords = true
      ∨ textHasAny (e.pages (apply_external_form e).finalIdx) blindSuccessKeywords = true) :=
  ⟨apply_easy_success_evidence, apply_external_success_evidence⟩

/-- The outcome an agent CLI reports after claiming it submitted the form. -/
def agentSuccessOutcome : Outcome := ⟨true, some "agent_browser", none, none⟩

/-- An external-form environment where the agent claims success while no
page the engine can observe shows any success phrase. -/
def c1CexExt : ExtFormEnv :=
  ⟨some agentSuccessOutcome, plainPages, .error "e1", .error "e2", .error "e3",
   fun _ => none⟩

/-- Counterexample to C1 as stated: the agent-handoff tier returns
success purely on the agent's structured claim, with no success phrase in
any page text the engine observes and no modal signal. -/
theorem claim_C1_counterexample :
    (apply_external_form c1CexExt).outcome.success = true
    ∧ textHasAny (c1CexExt.pages (apply_external_form c1CexExt).finalIdx)
        visionSuccessKeywords = false
    ∧ textHasAny (c1CexExt.pages (apply_external_form c1CexExt).finalIdx)
        blindSuccessKeywords = false
    ∧ textHasAny (c1CexExt.pages (apply_external_form c1CexExt).finalIdx)
        easySuccessKeywords = false := by
  refine ⟨by decide, by decide, by decide, by decide⟩

/-- The job posting page with an Easy Apply button. -/
def jobView : PageView :=
  ⟨some "job posting", false, true, false, false, false, true,
   fun _ => false, fun _ => false⟩

/-- A modal step offering a submit button. -/
def modalSubmitView : PageView :=
  ⟨some "review your application", false, false, false, true, false, true,
   fun _ => false, fun _ => false⟩

/-- The confirmation page after submitting. -/
def confirmView : PageView :=
  ⟨some "Application submitted", false, false, false, false, false, true,
   fun _ => false, fun _ => false⟩

/-- A guided apply that submits on the first modal step and confirms. -/
def easyOkEnv : Nat → PageView :=
  fun k => if k = 0 then jobView else if k = 1 then modalSubmitView else confirmView

/-- A thank-you page shown by the external form. -/
def thanksView : PageView :=
  ⟨some "Thank you for applying", false, false, false, false, false, true,
   fun _ => false, fun _ => false⟩

/-- An external form whose vision plan is empty and whose page already
confirms the application. -/
def visionOkExt : ExtFormEnv :=
  ⟨none, fun _ => thanksView, .ok "[]", .error "x", .error "x", fun _ => some []⟩

/-- Witness for C1 at a concrete confirmed guided apply and a concrete
confirmed vision-guided form. -/
theorem claim_C1_witness :
    ((textHasAny (easyOkEnv (apply_linkedin_easy_apply easyOkEnv).finalIdx)
        easySuccessKeywords = true
      ∨ (easyOkEnv (apply_linkedin_easy_apply easyOkEnv).finalIdx).modalPresent = false)
     ∧ (apply_linkedin_easy_apply easyOkEnv).trace.getLast?
         = some (EngineAction.clickSubmit ((apply_linkedin_easy_apply easyOkEnv).finalIdx - 1)))
    ∧ (visionOkExt.agentResult = some (apply_external_form visionOkExt).outcome
      ∨ textHasAny (visionOkExt.pages (apply_external_form visionOkExt).finalIdx)
          visionSuccessKeywords = true
      ∨ textHasAny (visionOkExt.pages (apply_external_form visionOkExt).finalIdx)
          blindSuccessKeywords = true) :=
  ⟨claim_C1_no_false_success.1 easyOkEnv (by decide),
   claim_C1_no_false_success.2 visionOkExt (by decide)⟩

end JobApplier
